import Mathlib

/-!
# Verification of the real-estate quadrant dashboard (`app.py`)

Shallow embedding of the data pipeline and rendering control flow of the
Streamlit app in `app.py`:

* `load_data` (app.py lines 18-57): reads the "3.매매지수" (sale index) and
  "4.전세지수" (rent index) sheets of a workbook, drops rows whose '구분'
  (period) cell is missing, fills remaining missing cells with 0, melts each
  wide table to long format, inner-merges the two long tables on
  (period, region), and parses the period column into dates.  Any failure
  (missing file, missing sheet, missing period column, unparseable period)
  is caught and the whole load yields nothing (the app shows an error).
* the selection logic (app.py lines 96-136): the boolean `mask` filter over
  date range and selected regions, `df_sel_sorted` (sort ascending by date),
  the per-region polyline drawn by `px.line` (rows of one region in sorted
  order), and `last_points` (`groupby('지역')['날짜'].idxmax()`, i.e. the
  first row attaining the maximal date within each region group), which
  anchors the region's text label.
* the top-level control flow (app.py lines 69-161): upload gate, date-range
  completeness check, empty-selection notice.

Modelling choices: dates are `Int` (the order is all that matters);
spreadsheet numeric cells are `Rat` (values are only carried through, never
computed with, so exact rationals are a faithful stand-in for floats);
`pd.to_datetime` is an abstract parameter `parse : String → Option Int`
(a library routine; the pipeline only uses that it either converts every
period label or fails the whole column).  `pd.read_excel`'s `skiprows`
handling is part of the spreadsheet reader and outside the model: a
`RawSheet` is the table as returned by the reader.  The sort in
`df_sel_sorted` is embedded as a stable insertion sort keyed on the date.
-/

/-- One row of the merged, date-parsed table `df_merged` returned by
`load_data`: (date '날짜', region '지역', sale index '매매지수',
rent index '전세지수'). -/
structure ObservationRow where
  date : Int
  region : String
  sale : Rat
  rent : Rat
deriving DecidableEq

/-- One row of a melted (long-format) sheet before the merge:
(period label '구분'/'날짜' still unparsed, region '지역', metric value). -/
structure LongRow where
  period : String
  region : String
  val : Rat
deriving DecidableEq

/-- One row of the merged table before date parsing. -/
structure MergedRow where
  period : String
  region : String
  saleVal : Rat
  rentVal : Rat
deriving DecidableEq

/-- A wide sheet as returned by the spreadsheet reader: whether the period
column '구분' is present, the category (region) column headers, and the data
rows (period cell, then one cell per category column; `none` is a missing
cell / NaN). -/
structure RawSheet where
  hasPeriodColumn : Bool
  categories : List String
  rows : List (Option String × List (Option Rat))
deriving DecidableEq

/-- A workbook: named sheets.  `none` at the `load_data` call site models a
missing file. -/
def Workbook : Type := List (String × RawSheet)

/-- Sheet lookup by name (`pd.read_excel` with `sheet_name=`); `none` when
the sheet is absent, which in the code raises and is caught by `load_data`'s
`except`. -/
def lookupSheet (wb : Workbook) (name : String) : Option RawSheet :=
  (List.find? (fun s => s.1 == name) wb).map (fun s => s.2)

/-- The sale sheet name used in app.py line 24. -/
def saleSheetName : String := "3.매매지수"

/-- The rent sheet name used in app.py line 25. -/
def rentSheetName : String := "4.전세지수"

/-- `sale.dropna(subset=['구분'])` (app.py lines 29-30): remove the rows
whose period cell is missing. -/
def dropnaPeriod (rows : List (Option String × List (Option Rat))) :
    List (String × List (Option Rat)) :=
  rows.filterMap (fun r => r.1.map (fun p => (p, r.2)))

/-- `sale.fillna(0)` (app.py lines 33-34): every remaining missing cell
becomes 0. -/
def fillna0 (rows : List (String × List (Option Rat))) :
    List (String × List Rat) :=
  rows.map (fun r => (r.1, r.2.map (fun c => c.getD 0)))

/-- `sale.melt(id_vars=['날짜'], ...)` (app.py lines 45-46): wide to long.
pandas `melt` emits the output column-major: all rows of the first category
column, then all rows of the second, and so on. -/
def meltSheet (cats : List String) (rows : List (String × List Rat)) :
    List LongRow :=
  cats.enum.flatMap (fun jc =>
    rows.map (fun r => ⟨r.1, jc.2, r.2.getD jc.1 0⟩))

/-- The cleaning-and-reshaping half of `load_data` applied to one sheet:
dropna on the period column, fillna(0), melt. -/
def cleanLong (sh : RawSheet) : List LongRow :=
  meltSheet sh.categories (fillna0 (dropnaPeriod sh.rows))

/-- `pd.merge(sale_melt, rent_melt, on=['날짜', '지역'])` (app.py line 49):
inner join.  For each left row in order, every right row with the same
(period, region) key produces one output row, so duplicate keys fan out as
the Cartesian product, exactly as pandas does. -/
def mergeTables (l r : List LongRow) : List MergedRow :=
  l.flatMap (fun a =>
    (r.filter (fun b => b.period == a.period && b.region == a.region)).map
      (fun b => ⟨a.period, a.region, a.val, b.val⟩))

/-- `pd.to_datetime(df_merged['날짜'])` (app.py line 52): parse every period
label; a single failure aborts the whole column (pandas raises, `load_data`
catches and returns nothing). -/
def parseAllDates (parse : String → Option Int) :
    List MergedRow → Option (List ObservationRow)
  | [] => some []
  | m :: ms =>
    match parse m.period with
    | none => none
    | some d =>
      match parseAllDates parse ms with
      | none => none
      | some rest => some (⟨d, m.region, m.saleVal, m.rentVal⟩ :: rest)

/-- `load_data` (app.py lines 18-57).  The `except` branch that shows
`st.error` and returns `None` is modelled by the `none` result: missing
file, missing sheet, missing '구분' column (the `dropna(subset=['구분'])`
raises), or a period label `pd.to_datetime` cannot parse all collapse to
`none` — no partial table ever escapes. -/
def load_data (parse : String → Option Int) (file : Option Workbook) :
    Option (List ObservationRow) :=
  match file with
  | none => none
  | some wb =>
    match lookupSheet wb saleSheetName, lookupSheet wb rentSheetName with
    | some sale, some rent =>
      if sale.hasPeriodColumn && rent.hasPeriodColumn then
        parseAllDates parse (mergeTables (cleanLong sale) (cleanLong rent))
      else none
    | _, _ => none

/-- The boolean `mask` filter and `df_sel = df[mask]` (app.py lines
102-107): keep the rows whose date lies in the closed interval
[start_date, end_date] and whose region is among the selected ones
(`df['지역'].isin(selected_regions)`). -/
def df_sel (df : List ObservationRow) (startDate endDate : Int)
    (regions : List String) : List ObservationRow :=
  df.filter (fun r =>
    decide (startDate ≤ r.date) && decide (r.date ≤ endDate) &&
      regions.contains r.region)

/-- Stable insertion of a row into a list sorted ascending by date: the new
row goes before the first strictly later position, after existing rows with
an equal date. -/
def orderedInsertByDate (a : ObservationRow) :
    List ObservationRow → List ObservationRow
  | [] => [a]
  | b :: l => if a.date ≤ b.date then a :: b :: l else b :: orderedInsertByDate a l

/-- Stable sort ascending by date, embedding
`df_sel.sort_values(by='날짜')` (app.py line 111). -/
def sortByDate : List ObservationRow → List ObservationRow
  | [] => []
  | a :: l => orderedInsertByDate a (sortByDate l)

/-- `df_sel_sorted` (app.py line 111). -/
def df_sel_sorted (df : List ObservationRow) (startDate endDate : Int)
    (regions : List String) : List ObservationRow :=
  sortByDate (df_sel df startDate endDate regions)

/-- The rows that make up one region's polyline: `px.line(df_sel_sorted,
..., color="지역")` (app.py lines 114-121) draws, for each region, the rows
of that region in the order they appear in `df_sel_sorted`. -/
def pathRows (df : List ObservationRow) (startDate endDate : Int)
    (regions : List String) (c : String) : List ObservationRow :=
  (df_sel_sorted df startDate endDate regions).filter (fun r => r.region == c)

/-- One region's rendered path: the (매매지수, 전세지수) = (sale, rent)
coordinate sequence of its rows in sorted order. -/
def pathPoints (df : List ObservationRow) (startDate endDate : Int)
    (regions : List String) (c : String) : List (Rat × Rat) :=
  (pathRows df startDate endDate regions c).map (fun r => (r.sale, r.rent))

/-- pandas `Series.idxmax` over one group: the first row (in group order)
attaining the maximal date. -/
def idxmaxByDate (g : List ObservationRow) : Option ObservationRow :=
  g.find? (fun r => g.all (fun r2 => decide (r2.date ≤ r.date)))

/-- `last_points = df_sel_sorted.loc[df_sel_sorted.groupby('지역')['날짜']
.idxmax()]` (app.py line 124), restricted to one region `c`: the row at
which the region's text label is anchored (app.py lines 127-136; the label
text is `row['지역']` and its position `(row['매매지수'], row['전세지수'])`). -/
def last_points (df : List ObservationRow) (startDate endDate : Int)
    (regions : List String) (c : String) : Option ObservationRow :=
  idxmaxByDate (pathRows df startDate endDate regions c)

/-- The observable outcome of one script run (app.py lines 69-161). -/
inductive Rendered where
  /-- No file uploaded: `st.info` prompt to upload (line 161). -/
  | uploadPrompt : Rendered
  /-- `load_data` failed: `st.error` was shown inside it (line 56) and the
  `if df is not None ...` guard renders nothing further. -/
  | loadError : Rendered
  /-- `load_data` succeeded but the table is empty: the guard at line 72 is
  false and nothing at all is rendered. -/
  | blank : Rendered
  /-- Fewer or more than two date endpoints: `st.info` prompt for a complete
  range (line 159). -/
  | datePrompt : Rendered
  /-- The selection matched no rows: `st.warning` notice (line 157),
  no chart. -/
  | emptyNotice : Rendered
  /-- A chart is drawn from the sorted selection (lines 110-155). -/
  | chart : List ObservationRow → Rendered
deriving DecidableEq

/-- The main script body (app.py lines 59-161).  `uploadedFile` is the
upload widget's value; its content is never passed to `load_data` — the
code always loads the fixed path `"20250922_주간시계열.xlsx"` (lines 64-66
and 70), modelled by `fixedFile`.  `dateRange` is the tuple returned by the
date widget (the code checks `len(selected_date_range) == 2`). -/
def app (parse : String → Option Int) (uploadedFile : Option Workbook)
    (fixedFile : Option Workbook) (selectedRegions : List String)
    (dateRange : List Int) : Rendered :=
  match uploadedFile with
  | none => .uploadPrompt
  | some _ =>
    match load_data parse fixedFile with
    | none => .loadError
    | some df =>
      if df.isEmpty then .blank
      else
        match dateRange with
        | [startDate, endDate] =>
          if (df_sel df startDate endDate selectedRegions).isEmpty then
            .emptyNotice
          else
            .chart (df_sel_sorted df startDate endDate selectedRegions)
        | _ => .datePrompt

/-! ## Concrete data for scenario and witness theorems -/

/-- A date parser for the scenario labels: "2024-01" ↦ 1, "2024-02" ↦ 2. -/
def parse1 : String → Option Int := fun s =>
  if s = "2024-01" then some 1 else if s = "2024-02" then some 2 else none

/-- Scenario sale sheet: periods 2024-01, 2024-02; categories A, B;
A = [1, 2], B = [3, missing]. -/
def saleSheet1 : RawSheet :=
  ⟨true, ["A", "B"],
    [(some "2024-01", [some 1, some 3]), (some "2024-02", [some 2, none])]⟩

/-- Scenario rent sheet: same periods and categories; A = [5, 6],
B = [7, 8]. -/
def rentSheet1 : RawSheet :=
  ⟨true, ["A", "B"],
    [(some "2024-01", [some 5, some 7]), (some "2024-02", [some 6, some 8])]⟩

/-- Scenario workbook holding the two sheets under the app's sheet names. -/
def wb1 : Workbook := [(saleSheetName, saleSheet1), (rentSheetName, rentSheet1)]

/-- The normalized rows the scenario expects. -/
def df1 : List ObservationRow :=
  [⟨1, "A", 1, 5⟩, ⟨2, "A", 2, 6⟩, ⟨1, "B", 3, 7⟩, ⟨2, "B", 0, 8⟩]

/-- A sale sheet with a duplicated period row for category A (values 1
then 2). -/
def saleSheetDup : RawSheet :=
  ⟨true, ["A"], [(some "2024-01", [some 1]), (some "2024-01", [some 2])]⟩

/-- A rent sheet with a single row for category A. -/
def rentSheetDup : RawSheet :=
  ⟨true, ["A"], [(some "2024-01", [some 5])]⟩

/-- Workbook whose merge fans out a duplicate (period, category) key. -/
def wbDup : Workbook :=
  [(saleSheetName, saleSheetDup), (rentSheetName, rentSheetDup)]

/-- The normalized rows `load_data` produces from `wbDup`: two rows of
category A sharing the same date. -/
def dfDup : List ObservationRow := [⟨1, "A", 1, 5⟩, ⟨1, "A", 2, 5⟩]

/-! ## Structural lemmas about the embedded operations -/

theorem orderedInsertByDate_perm (a : ObservationRow) (l : List ObservationRow) :
    (orderedInsertByDate a l).Perm (a :: l) := by
  induction l with
  | nil => exact List.Perm.refl _
  | cons b t ih =>
    rw [orderedInsertByDate]
    split
    · exact List.Perm.refl _
    · exact (ih.cons b).trans (List.Perm.swap a b t)

theorem sortByDate_perm (l : List ObservationRow) : (sortByDate l).Perm l := by
  induction l with
  | nil => exact List.Perm.refl _
  | cons a t ih => exact (orderedInsertByDate_perm a (sortByDate t)).trans (ih.cons a)

theorem orderedInsertByDate_sorted (a : ObservationRow) {l : List ObservationRow}
    (h : l.Pairwise fun x y => x.date ≤ y.date) :
    (orderedInsertByDate a l).Pairwise fun x y => x.date ≤ y.date := by
  induction l with
  | nil => simp [orderedInsertByDate]
  | cons b t ih =>
    rcases List.pairwise_cons.mp h with ⟨hb, ht⟩
    rw [orderedInsertByDate]
    split
    · next hab =>
      refine List.pairwise_cons.mpr ⟨?_, h⟩
      intro x hx
      rcases List.mem_cons.mp hx with rfl | hx
      · exact hab
      · exact le_trans hab (hb x hx)
    · next hab =>
      refine List.pairwise_cons.mpr ⟨?_, ih ht⟩
      intro x hx
      rcases List.mem_cons.mp ((orderedInsertByDate_perm a t).mem_iff.mp hx) with rfl | hx
      · exact le_of_not_le hab
      · exact hb x hx

theorem sortByDate_sorted (l : List ObservationRow) :
    (sortByDate l).Pairwise fun x y => x.date ≤ y.date := by
  induction l with
  | nil => simp [sortByDate]
  | cons a t ih => exact orderedInsertByDate_sorted a ih

theorem find?_ext {α : Type} (p q : α → Bool) (l : List α)
    (h : ∀ x ∈ l, p x = q x) : l.find? p = l.find? q := by
  induction l with
  | nil => rfl
  | cons a t ih =>
    have ha := h a (List.mem_cons_self a t)
    cases hpa : p a with
    | true =>
      rw [List.find?_cons_of_pos _ hpa, List.find?_cons_of_pos _ (ha.symm.trans hpa)]
    | false =>
      rw [List.find?_cons_of_neg _ (by simp [hpa]),
        List.find?_cons_of_neg _ (by simp [ha.symm.trans hpa])]
      exact ih fun x hx => h x (List.mem_cons_of_mem a hx)

theorem idxmaxByDate_eq_getLast {g : List ObservationRow}
    (hs : g.Pairwise fun x y => x.date ≤ y.date)
    (hne : g.Pairwise fun x y => x.date ≠ y.date) :
    idxmaxByDate g = g.getLast? := by
  induction g with
  | nil => rfl
  | cons a t ih =>
    cases t with
    | nil =>
      rw [idxmaxByDate, List.find?_cons_of_pos _ (by simp)]
      rfl
    | cons b t' =>
      rcases List.pairwise_cons.mp hs with ⟨hle, hs'⟩
      rcases List.pairwise_cons.mp hne with ⟨hnee, hne'⟩
      have hab : a.date < b.date :=
        lt_of_le_of_ne (hle b (List.mem_cons_self b t')) (hnee b (List.mem_cons_self b t'))
      have hpa : ((a :: b :: t').all fun r2 => decide (r2.date ≤ a.date)) = false := by
        simp only [List.all_eq_false]
        exact ⟨b, List.mem_cons_of_mem a (List.mem_cons_self b t'),
          by simp [not_le.mpr hab]⟩
      rw [idxmaxByDate, List.find?_cons_of_neg _ (by simp [hpa])]
      have hagree : ∀ x ∈ b :: t',
          (fun r => (a :: b :: t').all fun r2 => decide (r2.date ≤ r.date)) x =
            (fun r => (b :: t').all fun r2 => decide (r2.date ≤ r.date)) x := by
        intro x hx
        simp only [List.all_cons]
        rw [decide_eq_true (hle x hx), Bool.true_and]
      rw [find?_ext _ _ (b :: t') hagree]
      have : (b :: t').find? (fun r => (b :: t').all fun r2 => decide (r2.date ≤ r.date)) =
          idxmaxByDate (b :: t') := rfl
      rw [this, ih hs' hne', List.getLast?_cons_cons]

theorem getD_map_getD : ∀ (l : List (Option Rat)) (j : Nat),
    (l.map fun c => c.getD 0).getD j 0 = (l.getD j none).getD 0 := by
  intro l
  induction l with
  | nil => intro j; rfl
  | cons c t ih =>
    intro j
    cases j with
    | zero => rfl
    | succ j' => exact ih j'

theorem parseAllDates_some {parse : String → Option Int} :
    ∀ {ms : List MergedRow} {df : List ObservationRow},
      parseAllDates parse ms = some df →
      df.length = ms.length ∧ ∀ m ∈ ms, (parse m.period).isSome := by
  intro ms
  induction ms with
  | nil =>
    intro df h
    rw [parseAllDates] at h
    cases h
    exact ⟨rfl, by simp⟩
  | cons m ms' ih =>
    intro df h
    rw [parseAllDates] at h
    cases hp : parse m.period with
    | none => rw [hp] at h; cases h
    | some d =>
      rw [hp] at h
      cases hr : parseAllDates parse ms' with
      | none => rw [hr] at h; cases h
      | some rest =>
        rw [hr] at h
        cases h
        obtain ⟨hlen, hall⟩ := ih hr
        refine ⟨by simp [hlen], ?_⟩
        intro x hx
        rcases List.mem_cons.mp hx with rfl | hx
        · simp [hp]
        · exact hall x hx

/-! ## Claim theorems -/

/-- C1: end-to-end scenario.  Normalizing the scenario workbook (sale sheet
periods 2024-01/2024-02, categories A/B, A = [1,2], B = [3,missing]; rent
sheet same shape with A = [5,6], B = [7,8]) yields exactly the rows
(2024-01,A,1,5), (2024-02,A,2,6), (2024-01,B,3,7), (2024-02,B,0,8), the
missing B cell having become 0.  Selecting the range covering both periods
and categories {A,B} renders path A = [(1,5),(2,6)] with its label anchored
at the row (2024-02,A,2,6) and path B = [(3,7),(0,8)] with its label
anchored at (2024-02,B,0,8). -/
theorem c1_end_to_end_scenario :
    load_data parse1 (some wb1) = some df1
      ∧ pathPoints df1 1 2 ["A", "B"] "A" = [(1, 5), (2, 6)]
      ∧ pathPoints df1 1 2 ["A", "B"] "B" = [(3, 7), (0, 8)]
      ∧ last_points df1 1 2 ["A", "B"] "A" = some ⟨2, "A", 2, 6⟩
      ∧ last_points df1 1 2 ["A", "B"] "B" = some ⟨2, "B", 0, 8⟩ := by
  decide

/-- C2: the rendered data is independent of the uploaded file's content.
The script only ever calls `load_data` on the fixed path
`"20250922_주간시계열.xlsx"` (modelled by `fixedFile`), never on the upload
widget's value, so any two uploads — in particular any two distinct
non-empty ones — produce identical normalized data and identical rendering;
the upload only gates whether anything is processed at all (no upload shows
just the upload prompt). -/
theorem c2_upload_content_independence
    (parse : String → Option Int) (fixedFile : Option Workbook)
    (regions : List String) (dateRange : List Int) (u v : Workbook) :
    app parse (some u) fixedFile regions dateRange =
        app parse (some v) fixedFile regions dateRange
      ∧ app parse none fixedFile regions dateRange = .uploadPrompt :=
  ⟨rfl, rfl⟩

/-- C4: filter correctness.  A row is kept by the `mask` filter exactly when
it is a row of the table whose date lies in the closed interval
[startDate, endDate] and whose region is selected; sorting (`df_sel_sorted`,
which feeds the chart) neither adds nor removes rows. -/
theorem c4_filter_correctness (df : List ObservationRow)
    (startDate endDate : Int) (regions : List String) (r : ObservationRow) :
    (r ∈ df_sel df startDate endDate regions ↔
        r ∈ df ∧ startDate ≤ r.date ∧ r.date ≤ endDate ∧ r.region ∈ regions)
      ∧ (r ∈ df_sel_sorted df startDate endDate regions ↔
          r ∈ df_sel df startDate endDate regions) := by
  constructor
  · simp [df_sel, List.mem_filter, List.contains, List.elem_iff, and_assoc]
  · exact (sortByDate_perm _).mem_iff

/-- C7: ordering.  Within each category's rendered path the rows appear in
non-decreasing date order, and they are exactly (a permutation of) the
category's rows of the filtered selection — the path is the category's
filtered rows sorted ascending by period. -/
theorem c7_path_ordering (df : List ObservationRow) (startDate endDate : Int)
    (regions : List String) (c : String) :
    (pathRows df startDate endDate regions c).Pairwise
        (fun a b => a.date ≤ b.date)
      ∧ (pathRows df startDate endDate regions c).Perm
          ((df_sel df startDate endDate regions).filter
            (fun r => r.region == c)) := by
  constructor
  · exact List.Pairwise.sublist (List.filter_sublist _) (sortByDate_sorted _)
  · exact List.Perm.filter _ (sortByDate_perm _)

/-- C3 counterexample: the claim that the label position always equals the
path's last point after sorting fails when a category has two rows sharing
the maximal date.  `wbDup` (sale sheet rows 2024-01 ↦ 1 and 2024-01 ↦ 2 for
category A, rent sheet 2024-01 ↦ 5) normalizes — via the documented merge
fan-out — to two A-rows with the same date; the stable sort keeps them in
order, so the path ends at (2,5), while `groupby('지역')['날짜'].idxmax()`
returns the first row attaining the maximal date, anchoring the label at
(1,5) ≠ (2,5). -/
theorem c3_label_anchor_counterexample :
    load_data parse1 (some wbDup) = some dfDup
      ∧ last_points dfDup 1 1 ["A"] "A" = some ⟨1, "A", 1, 5⟩
      ∧ (pathPoints dfDup 1 1 ["A"] "A").getLast? = some (2, 5)
      ∧ (last_points dfDup 1 1 ["A"] "A").map (fun r => (r.sale, r.rent)) ≠
          (pathPoints dfDup 1 1 ["A"] "A").getLast? := by
  decide

/-- C3 (amended): for every category, the label is anchored at a row of that
category's filtered set that attains the maximal date (`idxmax` picks the
first such row in sorted order), and the label text is the category's name
(the anchoring row's region is the category).  Whenever the category's
filtered rows have pairwise-distinct dates — in particular whenever the
maximal date is attained only once — this anchor is exactly the
(sale, rent) pair of the path's last point after sorting, as the original
claim states. -/
theorem c3_label_anchor_amended (df : List ObservationRow)
    (startDate endDate : Int) (regions : List String) (c : String)
    (r : ObservationRow)
    (h : last_points df startDate endDate regions c = some r) :
    (r ∈ pathRows df startDate endDate regions c ∧ r.region = c
        ∧ ∀ r2 ∈ pathRows df startDate endDate regions c, r2.date ≤ r.date)
      ∧ ((pathRows df startDate endDate regions c).Pairwise
            (fun a b => a.date ≠ b.date) →
          (pathPoints df startDate endDate regions c).getLast? =
            some (r.sale, r.rent)) := by
  have h' : (pathRows df startDate endDate regions c).find?
      (fun x => (pathRows df startDate endDate regions c).all
        (fun r2 => decide (r2.date ≤ x.date))) = some r := h
  constructor
  · have hmem := List.mem_of_find?_eq_some h'
    have hp := List.find?_some h'
    refine ⟨hmem, ?_, ?_⟩
    · exact eq_of_beq (List.mem_filter.mp hmem).2
    · intro r2 h2
      exact of_decide_eq_true (List.all_eq_true.mp hp r2 h2)
  · intro hpw
    have hsorted : (pathRows df startDate endDate regions c).Pairwise
        (fun a b => a.date ≤ b.date) :=
      List.Pairwise.sublist (List.filter_sublist _) (sortByDate_sorted _)
    have hlast : (pathRows df startDate endDate regions c).getLast? = some r := by
      rw [← idxmaxByDate_eq_getLast hsorted hpw]
      exact h
    rw [pathPoints, List.getLast?_map, hlast]
    rfl

/-- C5: missing-value policy.  (1) For every sheet, every row whose period
cell is present and every category column whose cell in that row is absent,
the cleaned long table contains the observation (period, category, 0): the
absent cell becomes exactly 0 rather than being dropped — and the output
value type is total (never null) by construction.  (2) Every row of the
cleaned long table takes its period from a source row whose period cell is
present: rows with a missing period are removed before the zero-fill and
reshape and never produce a phantom zero-filled observation. -/
theorem c5_missing_value_policy (sh : RawSheet) :
    (∀ (j : Nat) (hj : j < sh.categories.length),
      ∀ pr ∈ sh.rows, ∀ p : String, pr.1 = some p → pr.2.getD j none = none →
        (⟨p, sh.categories.get ⟨j, hj⟩, 0⟩ : LongRow) ∈ cleanLong sh)
      ∧ ∀ x ∈ cleanLong sh, ∃ pr ∈ sh.rows, pr.1 = some x.period := by
  constructor
  · intro j hj pr hpr p hp hcell
    simp only [cleanLong, meltSheet, List.mem_flatMap]
    refine ⟨(j, sh.categories.get ⟨j, hj⟩), ?_, ?_⟩
    · rw [List.mem_enum_iff_getElem?]
      simp [List.getElem?_eq_getElem hj]
    · rw [List.mem_map]
      refine ⟨(p, pr.2.map fun c => c.getD 0), ?_, ?_⟩
      · simp only [fillna0, List.mem_map]
        refine ⟨(p, pr.2), ?_, rfl⟩
        simp only [dropnaPeriod, List.mem_filterMap]
        exact ⟨pr, hpr, by rw [hp]; rfl⟩
      · show LongRow.mk p _ ((pr.2.map fun c => c.getD 0).getD j 0) = _
        rw [getD_map_getD, hcell]
        rfl
  · intro x hx
    simp only [cleanLong, meltSheet, List.mem_flatMap, List.mem_map] at hx
    obtain ⟨jc, hjc, row, hrow, hxeq⟩ := hx
    simp only [fillna0, List.mem_map] at hrow
    obtain ⟨row0, hrow0, hroweq⟩ := hrow
    simp only [dropnaPeriod, List.mem_filterMap] at hrow0
    obtain ⟨pr, hpr, hpr2⟩ := hrow0
    refine ⟨pr, hpr, ?_⟩
    cases hp1 : pr.1 with
    | none => rw [hp1] at hpr2; cases hpr2
    | some q =>
      rw [hp1] at hpr2
      cases hpr2
      subst hroweq
      subst hxeq
      rfl

/-- C6: join correctness.  For every pair of cleaned long-format inputs and
every (period, category) key, the number of merged rows carrying that key is
the product of the key's multiplicities in the two inputs: a key present
once in both contributes exactly one row, duplicate keys fan out as the
Cartesian product, and a key present in only one input (multiplicity zero in
the other) contributes no row at all. -/
theorem c6_join_correctness (l r : List LongRow) (p c : String) :
    (mergeTables l r).countP (fun m => m.period == p && m.region == c) =
      l.countP (fun a => a.period == p && a.region == c) *
        r.countP (fun b => b.period == p && b.region == c) := by
  induction l with
  | nil => simp [mergeTables]
  | cons a t ih =>
    have hstep : mergeTables (a :: t) r =
        ((r.filter fun b => b.period == a.period && b.region == a.region).map
          fun b => MergedRow.mk a.period a.region a.val b.val)
          ++ mergeTables t r := by
      simp [mergeTables]
    rw [hstep, List.countP_append, ih, List.countP_map, List.countP_cons]
    cases hk : (a.period == p && a.region == c) with
    | false =>
      have h0 : List.countP
          ((fun m : MergedRow => m.period == p && m.region == c) ∘
            fun b : LongRow => MergedRow.mk a.period a.region a.val b.val)
          (r.filter fun b => b.period == a.period && b.region == a.region)
            = 0 := by
        apply List.countP_eq_zero.mpr
        intro b _
        simp only [Function.comp]
        rw [hk]
        exact Bool.false_ne_true
      rw [h0]
      simp
    | true =>
      have hk2 : (a.period == p) = true ∧ (a.region == c) = true := by
        rw [← Bool.and_eq_true]
        exact hk
      have hpa : a.period = p := eq_of_beq hk2.1
      have hca : a.region = c := eq_of_beq hk2.2
      have hconst : ((fun m : MergedRow => m.period == p && m.region == c) ∘
          fun b : LongRow => MergedRow.mk a.period a.region a.val b.val) =
            fun _ => true := by
        funext b
        simp only [Function.comp]
        exact hk
      rw [hconst]
      have hlen : List.countP (fun _ => true)
          (r.filter fun b => b.period == a.period && b.region == a.region) =
            r.countP (fun b => b.period == p && b.region == c) := by
        rw [List.countP_eq_length_filter, List.filter_filter]
        rw [List.countP_eq_length_filter]
        congr 1
        apply List.filter_congr
        intro b _
        rw [hpa, hca]
        simp
      rw [hlen]
      simp
      ring

/-- C8: load-failure atomicity.  (1) A successful load certifies that no
failure condition held: the file existed, both expected sheets were found,
both had the period column, every merged row's period parsed, and the
returned table covers the whole merged table (same length) — so whenever
any of these fails, `load_data` returns `none` and no partial table exists
(there is no row-level recovery).  (2) When the load fails, the script run
ends in the `loadError` state: the error message was shown inside
`load_data` and no chart is attempted. -/
theorem c8_load_failure_atomicity :
    (∀ (parse : String → Option Int) (file : Option Workbook)
        (df : List ObservationRow), load_data parse file = some df →
      ∃ wb sale rent, file = some wb
        ∧ lookupSheet wb saleSheetName = some sale
        ∧ lookupSheet wb rentSheetName = some rent
        ∧ sale.hasPeriodColumn = true ∧ rent.hasPeriodColumn = true
        ∧ df.length = (mergeTables (cleanLong sale) (cleanLong rent)).length
        ∧ ∀ m ∈ mergeTables (cleanLong sale) (cleanLong rent),
            (parse m.period).isSome)
      ∧ ∀ (parse : String → Option Int) (u : Workbook)
          (fixedFile : Option Workbook) (regions : List String)
          (dateRange : List Int), load_data parse fixedFile = none →
        app parse (some u) fixedFile regions dateRange = .loadError := by
  constructor
  · intro parse file df h
    rcases file with _ | wb
    · cases h
    · refine ⟨wb, ?_⟩
      cases hsale : lookupSheet wb saleSheetName with
      | none =>
        simp only [load_data, hsale] at h
        exact Option.noConfusion h
      | some sale =>
        cases hrent : lookupSheet wb rentSheetName with
        | none =>
          simp only [load_data, hsale, hrent] at h
          exact Option.noConfusion h
        | some rent =>
          simp only [load_data, hsale, hrent] at h
          split at h
          · next hcols =>
            have hcols2 : sale.hasPeriodColumn = true ∧
                rent.hasPeriodColumn = true := by
              rw [← Bool.and_eq_true]
              exact hcols
            obtain ⟨hlen, hall⟩ := parseAllDates_some h
            exact ⟨sale, rent, rfl, rfl, rfl, hcols2.1, hcols2.2, hlen, hall⟩
          · cases h
  · intro parse u fixedFile regions dateRange h
    simp only [app, h]

/-- C9: an empty selection result is not an error.  (1) Whenever the load
succeeded with a non-empty table but the mask filter selects no rows — for
any reason: a date range matching no periods, unselected categories, or any
combination — the script run ends in the distinct `emptyNotice` state
(`st.warning`, no chart, never an exception or a partial chart).
(2) Choosing zero categories always yields the empty filtered set,
whatever the date range, and hence that same state. -/
theorem c9_empty_selection_notice :
    (∀ (parse : String → Option Int) (u : Workbook)
        (fixedFile : Option Workbook) (df : List ObservationRow)
        (regions : List String) (startDate endDate : Int),
      load_data parse fixedFile = some df → df ≠ [] →
      df_sel df startDate endDate regions = [] →
      app parse (some u) fixedFile regions [startDate, endDate] =
        .emptyNotice)
      ∧ ∀ (df : List ObservationRow) (startDate endDate : Int),
          df_sel df startDate endDate [] = [] := by
  constructor
  · intro parse u fixedFile df regions startDate endDate hload hne hsel
    simp only [app, hload]
    rw [if_neg (fun hh => hne (List.isEmpty_iff.mp hh))]
    simp only [hsel]
    rfl
  · intro df startDate endDate
    simp [df_sel]

/-- C10: malformed date range.  Whenever the date widget supplies a tuple of
fewer (or more) than two endpoints, the run ends in the `datePrompt` state:
a prompt for a complete range, no filtering, no sorting and no chart
computed over the normalized table, and no crash. -/
theorem c10_incomplete_date_range (parse : String → Option Int)
    (u : Workbook) (fixedFile : Option Workbook) (df : List ObservationRow)
    (regions : List String) (dateRange : List Int)
    (hload : load_data parse fixedFile = some df) (hne : df ≠ [])
    (hlen : dateRange.length ≠ 2) :
    app parse (some u) fixedFile regions dateRange = .datePrompt := by
  simp only [app, hload]
  rw [if_neg (fun hh => hne (List.isEmpty_iff.mp hh))]
  rcases dateRange with _ | ⟨a, _ | ⟨b, _ | ⟨c, t⟩⟩⟩
  · rfl
  · rfl
  · exact absurd rfl hlen
  · rfl

/-! ## Witness instantiations of the universally quantified claim theorems -/

/-- C2 witness: two different uploads over the scenario fixed file render
identically, and no upload shows the upload prompt. -/
theorem c2_upload_content_independence_witness :
    app parse1 (some wb1) (some wb1) ["A"] [1, 2] =
        app parse1 (some wbDup) (some wb1) ["A"] [1, 2]
      ∧ app parse1 none (some wb1) ["A"] [1, 2] = .uploadPrompt :=
  c2_upload_content_independence parse1 (some wb1) ["A"] [1, 2] wb1 wbDup

/-- C3 witness: on the scenario data, where category A's dates are
distinct, the label anchor row is a maximal-date row of A's path and the
path's last point carries its coordinates. -/
theorem c3_label_anchor_witness :
    ((⟨2, "A", 2, 6⟩ : ObservationRow) ∈ pathRows df1 1 2 ["A", "B"] "A"
        ∧ (⟨2, "A", 2, 6⟩ : ObservationRow).region = "A"
        ∧ ∀ r2 ∈ pathRows df1 1 2 ["A", "B"] "A",
            r2.date ≤ (⟨2, "A", 2, 6⟩ : ObservationRow).date)
      ∧ (pathPoints df1 1 2 ["A", "B"] "A").getLast? = some (2, 6) := by
  have h := c3_label_anchor_amended df1 1 2 ["A", "B"] "A" ⟨2, "A", 2, 6⟩
    (by decide)
  exact ⟨h.1, h.2 (by decide)⟩

/-- C4 witness: the filter characterization at a concrete row of the
scenario data. -/
theorem c4_filter_correctness_witness :
    ((⟨1, "A", 1, 5⟩ : ObservationRow) ∈ df_sel df1 1 2 ["A"] ↔
        (⟨1, "A", 1, 5⟩ : ObservationRow) ∈ df1 ∧ (1 : Int) ≤ 1 ∧
          (1 : Int) ≤ 2 ∧ "A" ∈ ["A"])
      ∧ ((⟨1, "A", 1, 5⟩ : ObservationRow) ∈ df_sel_sorted df1 1 2 ["A"] ↔
          (⟨1, "A", 1, 5⟩ : ObservationRow) ∈ df_sel df1 1 2 ["A"]) :=
  c4_filter_correctness df1 1 2 ["A"] ⟨1, "A", 1, 5⟩

/-- C5 witness: in the scenario sale sheet, the absent B-cell of period
2024-02 yields the observation (2024-02, B, 0), and 2024-02 indeed comes
from a row with a present period cell. -/
theorem c5_missing_value_policy_witness :
    (⟨"2024-02", "B", 0⟩ : LongRow) ∈ cleanLong saleSheet1
      ∧ ∃ pr ∈ saleSheet1.rows, pr.1 = some "2024-02" := by
  refine ⟨?_, ⟨(some "2024-02", [some 2, none]), by decide, rfl⟩⟩
  exact (c5_missing_value_policy saleSheet1).1 1 (by decide)
    (some "2024-02", [some 2, none]) (by decide) "2024-02" rfl rfl

/-- C6 witness: the multiplicity equation at the key (2024-01, A) of the
scenario's two cleaned long tables. -/
theorem c6_join_correctness_witness :
    (mergeTables (cleanLong saleSheet1) (cleanLong rentSheet1)).countP
        (fun m => m.period == "2024-01" && m.region == "A") =
      (cleanLong saleSheet1).countP
          (fun a => a.period == "2024-01" && a.region == "A") *
        (cleanLong rentSheet1).countP
          (fun b => b.period == "2024-01" && b.region == "A") :=
  c6_join_correctness (cleanLong saleSheet1) (cleanLong rentSheet1)
    "2024-01" "A"

/-- C7 witness: ordering and permutation facts for path A of the scenario
data. -/
theorem c7_path_ordering_witness :
    (pathRows df1 1 2 ["A", "B"] "A").Pairwise (fun a b => a.date ≤ b.date)
      ∧ (pathRows df1 1 2 ["A", "B"] "A").Perm
          ((df_sel df1 1 2 ["A", "B"]).filter (fun r => r.region == "A")) :=
  c7_path_ordering df1 1 2 ["A", "B"] "A"

/-- C8 witness: with the fixed file missing, the run of the app with an
upload present ends in the load-error state. -/
theorem c8_load_failure_atomicity_witness :
    app parse1 (some wb1) none ["A"] [1, 2] = .loadError :=
  c8_load_failure_atomicity.2 parse1 wb1 none ["A"] [1, 2] rfl

/-- C9 witness: selecting a category absent from the scenario data ends the
run in the empty-selection notice state. -/
theorem c9_empty_selection_notice_witness :
    app parse1 (some wb1) (some wb1) ["Z"] [1, 2] = .emptyNotice :=
  c9_empty_selection_notice.1 parse1 wb1 (some wb1) df1 ["Z"] 1 2
    (by decide) (by decide) (by decide)

/-- C10 witness: an empty date tuple over the scenario data ends the run in
the date-prompt state. -/
theorem c10_incomplete_date_range_witness :
    app parse1 (some wb1) (some wb1) ["A"] [] = .datePrompt :=
  c10_incomplete_date_range parse1 wb1 (some wb1) df1 ["A"] []
    (by decide) (by decide) (by decide)
